import Mathlib

/-!
Verification of the research-synthesis pipeline of this repository.

The development shallowly embeds the Python sources:
  * `research_ir.py` — the `ResearchIR` schema and `validate_research_ir`;
  * `router.py` — `analyze_question_for_routing` and `route_question_to_pipeline`;
  * `app.py` — `extract_facts_and_risks_v2`, the three consultant task
    bodies with their thread-pool fan-out, the Phase 2 synthesis retry
    loop and the Phase 3 review retry loop.

Python runtime values flowing through these functions are modelled by the
`PyVal` inductive (JSON numbers are modelled as integers; fractional
literals and float values are outside the model, and Python `str()` of
composite values is rendered in a repr-like form — no claim below depends
on either).  External model calls are modelled by passing the call
outcome (`Except`-valued oracles) as an argument; code that can raise is
embedded in `Except String`.
-/

set_option maxRecDepth 10000

namespace Gemini3WebStudio

/-- A Python/JSON runtime value (dict keys are strings, as produced by
`json.loads` and by every dict literal in the embedded code). -/
inductive PyVal where
  | none : PyVal
  | bool : Bool → PyVal
  | int : Int → PyVal
  | str : String → PyVal
  | list : List PyVal → PyVal
  | dict : List (String × PyVal) → PyVal

/-- Character-list primitives used throughout (structural recursion so
that every concrete evaluation reduces in the kernel). -/
def listIsPrefixB : List Char → List Char → Bool
  | [], _ => true
  | _ :: _, [] => false
  | a :: as, b :: bs => a = b && listIsPrefixB as bs

def listContainsB (needle : List Char) : List Char → Bool
  | [] => listIsPrefixB needle []
  | c :: cs => listIsPrefixB needle (c :: cs) || listContainsB needle cs

/-- Python `sub in s` for strings. -/
def strContains (s sub : String) : Bool :=
  listContainsB sub.data s.data

def strStartsWith (s pre : String) : Bool :=
  listIsPrefixB pre.data s.data

/-- Python `str.strip()` (whitespace trimming on both ends). -/
def strTrim (s : String) : String :=
  ⟨(((s.data.dropWhile Char.isWhitespace).reverse.dropWhile Char.isWhitespace).reverse)⟩

/-- Python slicing `s[:n]` (by code points). -/
def strTake (s : String) (n : Nat) : String :=
  ⟨s.data.take n⟩

def strLen (s : String) : Nat :=
  s.data.length

def strToLower (s : String) : String :=
  ⟨s.data.map Char.toLower⟩

def strToUpper (s : String) : String :=
  ⟨s.data.map Char.toUpper⟩

/-- The apostrophe character, used by Python `repr` of strings and by the
JSON repair pass of `extract_facts_and_risks_v2`. -/
def aposChar : Char := Char.ofNat 39

mutual

/-- Python `repr` of a value, approximated (string escapes are not
re-escaped; no claim depends on the exact rendering of composites). -/
def pyRepr : PyVal → String
  | .none => "None"
  | .bool true => "True"
  | .bool false => "False"
  | .int n => toString n
  | .str s => String.singleton aposChar ++ s ++ String.singleton aposChar
  | .list xs => "[" ++ String.intercalate ", " (pyReprList xs) ++ "]"
  | .dict kvs => "\x7b" ++ String.intercalate ", " (pyReprDict kvs) ++ "\x7d"

/-- `repr` of each element of a list. -/
def pyReprList : List PyVal → List String
  | [] => []
  | x :: xs => pyRepr x :: pyReprList xs

/-- `repr` of each `key: value` entry of a dict. -/
def pyReprDict : List (String × PyVal) → List String
  | [] => []
  | (k, v) :: kvs =>
      (String.singleton aposChar ++ k ++ String.singleton aposChar ++ ": " ++ pyRepr v)
        :: pyReprDict kvs

end

/-- Python `str(x)`. -/
def pyStr : PyVal → String
  | .str s => s
  | v => pyRepr v

/-- Python `d.get(key)` (default `None`): first binding wins; the
embedding keeps dict keys unique, matching Python dicts. -/
def alookup : List (String × PyVal) → String → Option PyVal
  | [], _ => Option.none
  | (k, v) :: rest, key => if k = key then some v else alookup rest key

/-- Python `d.get(key)` returning `None` when absent. -/
def dget (kvs : List (String × PyVal)) (key : String) : PyVal :=
  (alookup kvs key).getD .none

/-- Python `d.get(key, default)`. -/
def dgetD (kvs : List (String × PyVal)) (key : String) (default : PyVal) : PyVal :=
  (alookup kvs key).getD default

/-- Python `d.setdefault(key, default)` (returning the updated dict). -/
def dsetdefault (kvs : List (String × PyVal)) (key : String) (default : PyVal) :
    List (String × PyVal) :=
  match alookup kvs key with
  | some _ => kvs
  | Option.none => kvs ++ [(key, default)]

/-- Python `d[key] = v`: update in place, append if absent. -/
def dset : List (String × PyVal) → String → PyVal → List (String × PyVal)
  | [], key, v => [(key, v)]
  | (k, w) :: rest, key, v =>
      if k = key then (k, v) :: rest else (k, w) :: dset rest key v

/-- Python `v in [list of string literals]` (equality between a runtime
value and a string is only true for equal strings). -/
def vIn (v : PyVal) (ss : List String) : Bool :=
  match v with
  | .str s => ss.contains s
  | _ => false

/-- Python `v == "lit"`. -/
def pyEqStr (v : PyVal) (s : String) : Bool :=
  match v with
  | .str t => t = s
  | _ => false

/-- Python truthiness. -/
def pyTruthy : PyVal → Bool
  | .none => false
  | .bool b => b
  | .int n => n ≠ 0
  | .str s => s ≠ ""
  | .list xs => !xs.isEmpty
  | .dict kvs => !kvs.isEmpty

/-- Python iteration `for x in v`: lists yield elements, strings yield
one-character strings, dicts yield their keys; other values raise
`TypeError`. -/
def pyIter : PyVal → Except String (List PyVal)
  | .list xs => .ok xs
  | .str s => .ok (s.data.map fun c => .str (String.singleton c))
  | .dict kvs => .ok (kvs.map fun kv => .str kv.1)
  | .none => .error "TypeError: NoneType object is not iterable"
  | .bool _ => .error "TypeError: bool object is not iterable"
  | .int _ => .error "TypeError: int object is not iterable"

/-- Integer literal parsing for Python `int(str)`: optional sign and a
nonempty digit run after trimming. -/
def digitsToNat : List Char → Option Nat
  | [] => some 0
  | c :: cs =>
      if c.isDigit then
        (digitsToNat cs).map fun n => (c.toNat - 48) * 10 ^ cs.length + n
      else Option.none

def strToIntOpt (s : String) : Option Int :=
  match (strTrim s).data with
  | [] => Option.none
  | '-' :: rest =>
      if rest = [] then Option.none else (digitsToNat rest).map fun n => -(n : Int)
  | '+' :: rest =>
      if rest = [] then Option.none else (digitsToNat rest).map fun n => (n : Int)
  | cs => (digitsToNat cs).map fun n => (n : Int)

/-- Python `int(x)` (floats are outside the model). -/
def pyInt : PyVal → Except String Int
  | .int n => .ok n
  | .bool b => .ok (if b then 1 else 0)
  | .str s =>
      match strToIntOpt s with
      | some n => .ok n
      | Option.none => .error "ValueError: invalid literal for int() with base 10"
  | .none => .error "TypeError: int() argument must not be None"
  | .list _ => .error "TypeError: int() argument must not be a list"
  | .dict _ => .error "TypeError: int() argument must not be a dict"

/-! ## `research_ir.py` — schema and `validate_research_ir` -/

/-- `FactIR` (TypedDict in the source): the `date` field is passed
through unvalidated, hence stays a `PyVal`. -/
structure FactIR where
  statement : String
  source : String
  source_detail : String
  date : PyVal
  confidence : String

/-- `OptionIR`. -/
structure OptionIR where
  name : String
  pros : List String
  cons : List String
  conditions : List String
  estimated_cost : PyVal

/-- `RiskIR`. -/
structure RiskIR where
  statement : String
  severity : String
  timeframe : String
  mitigation : PyVal

/-- `UnknownIR`. -/
structure UnknownIR where
  question : String
  why_unknown : String
  impact : String

/-- `ResearchMetadataIR`. -/
structure ResearchMetadataIR where
  question : String
  language : String
  created_at : String
  models : List String
  sources_count : Int
  search_queries : List String

/-- `ResearchIR`. -/
structure ResearchIR where
  facts : List FactIR
  options : List OptionIR
  risks : List RiskIR
  unknowns : List UnknownIR
  metadata : ResearchMetadataIR

/-- Declared enum sets of the schema. -/
def sourceEnum : List String := ["web", "youtube", "model"]

def confidenceEnum : List String := ["high", "medium", "low", "unknown"]

def timeframeEnum : List String := ["short", "medium", "long", "unknown"]

def whyUnknownEnum : List String :=
  ["insufficient_data", "conflicting_data", "grey_area", "future_dependent", "unknown"]

/-- The enum-clamping conditional used by every enum field of the
validator: `d.get(key, fallback) if d.get(key) in enum else fallback`
(the `o` argument is `d.get(key)`; when the looked-up value is a member
of `enum` it is necessarily that string, otherwise the fallback is
substituted — for a missing key both `get`s agree on the fallback). -/
def enumCoerce (enum : List String) (fallback : String) (o : Option PyVal) : String :=
  match o with
  | some (.str s) => if enum.contains s then s else fallback
  | _ => fallback

/-- Body of the per-fact normalization loop of `validate_research_ir`
(index `i` only feeds the warning messages).  `Option.none` models the
`continue` taken for non-dict elements. -/
def normalizeFact (i : Nat) (v : PyVal) : Option FactIR × List String :=
  match v with
  | .dict kvs =>
      let f : FactIR :=
        { statement := pyStr (dgetD kvs "statement" (.str ""))
          source := enumCoerce sourceEnum "model" (alookup kvs "source")
          source_detail := pyStr (dgetD kvs "source_detail" (.str ""))
          date := dget kvs "date"
          confidence := enumCoerce confidenceEnum "unknown" (alookup kvs "confidence") }
      (some f, if f.statement = "" then [s!"Fact {i} has empty statement"] else [])
  | _ => (Option.none, [s!"Fact {i} is not a dict, skipping"])

/-- Body of the per-risk normalization loop. -/
def normalizeRisk (i : Nat) (v : PyVal) : Option RiskIR × List String :=
  match v with
  | .dict kvs =>
      let r : RiskIR :=
        { statement := pyStr (dgetD kvs "statement" (.str ""))
          severity := enumCoerce confidenceEnum "unknown" (alookup kvs "severity")
          timeframe := enumCoerce timeframeEnum "unknown" (alookup kvs "timeframe")
          mitigation := dget kvs "mitigation" }
      (some r, if r.statement = "" then [s!"Risk {i} has empty statement"] else [])
  | _ => (Option.none, [s!"Risk {i} is not a dict, skipping"])

/-- Body of the per-unknown normalization loop. -/
def normalizeUnknown (i : Nat) (v : PyVal) : Option UnknownIR × List String :=
  match v with
  | .dict kvs =>
      let u : UnknownIR :=
        { question := pyStr (dgetD kvs "question" (.str ""))
          why_unknown := enumCoerce whyUnknownEnum "unknown" (alookup kvs "why_unknown")
          impact := enumCoerce confidenceEnum "unknown" (alookup kvs "impact") }
      (some u, if u.question = "" then [s!"Unknown {i} has empty question"] else [])
  | _ => (Option.none, [s!"Unknown {i} is not a dict, skipping"])

/-- An `enumerate`d loop whose body returns `Option.none` to skip an
element (shared shape of the facts / risks / unknowns loops). -/
def normLoop (step : Nat → PyVal → Option α × List String) :
    Nat → List PyVal → List α × List String
  | _, [] => ([], [])
  | i, v :: vs =>
      let (x?, w1) := step i v
      let (rest, w2) := normLoop step (i + 1) vs
      (match x? with
       | some x => x :: rest
       | Option.none => rest,
       w1 ++ w2)

/-- Python `[str(p) for p in v]` (raises when `v` is not iterable). -/
def pyStrListOf (v : PyVal) : Except String (List String) :=
  match pyIter v with
  | .ok xs => .ok (xs.map pyStr)
  | .error e => .error e

/-- Body of the per-option normalization loop (list comprehensions over
`pros` / `cons` / `conditions` can raise `TypeError`). -/
def normalizeOption (i : Nat) (v : PyVal) :
    Except String (Option OptionIR × List String) :=
  match v with
  | .dict kvs =>
      match pyStrListOf (dgetD kvs "pros" (.list [])) with
      | .error e => .error e
      | .ok pros =>
        match pyStrListOf (dgetD kvs "cons" (.list [])) with
        | .error e => .error e
        | .ok cons =>
          match pyStrListOf (dgetD kvs "conditions" (.list [])) with
          | .error e => .error e
          | .ok conditions =>
              let j := i + 1
              .ok (some
                { name := pyStr (dgetD kvs "name" (.str s!"Option {j}"))
                  pros := pros
                  cons := cons
                  conditions := conditions
                  estimated_cost := dget kvs "estimated_cost" }, [])
  | _ => .ok (Option.none, [s!"Option {i} is not a dict, skipping"])

/-- The options loop (fallible variant of `normLoop`). -/
def normalizeOptions : Nat → List PyVal → Except String (List OptionIR × List String)
  | _, [] => .ok ([], [])
  | i, v :: vs =>
      match normalizeOption i v with
      | .error e => .error e
      | .ok (x?, w1) =>
        match normalizeOptions (i + 1) vs with
        | .error e => .error e
        | .ok (rest, w2) =>
            .ok (match x? with
                 | some x => x :: rest
                 | Option.none => rest,
                 w1 ++ w2)

/-- Metadata normalization: `metadata.get` raises `AttributeError` on a
non-dict value; `int(...)` and the list comprehensions can raise.  The
`now` argument models `datetime.now().isoformat()`. -/
def normalizeMetadata (v : PyVal) (now : String) : Except String ResearchMetadataIR :=
  match v with
  | .dict kvs =>
      match pyStrListOf (dgetD kvs "models" (.list [])) with
      | .error e => .error e
      | .ok models =>
        match pyInt (dgetD kvs "sources_count" (.int 0)) with
        | .error e => .error e
        | .ok cnt =>
          match pyStrListOf (dgetD kvs "search_queries" (.list [])) with
          | .error e => .error e
          | .ok queries =>
              .ok { question := pyStr (dgetD kvs "question" (.str ""))
                    language := pyStr (dgetD kvs "language" (.str "ja"))
                    created_at := pyStr (dgetD kvs "created_at" (.str now))
                    models := models
                    sources_count := cnt
                    search_queries := queries }
  | _ => .error "AttributeError: object has no attribute get"

/-- `validate_research_ir` (research_ir.py:77-200).  The input is the
dict `ir`; `now` models the wall clock read for the `created_at`
default.  Exceptions raised by the Python body (non-iterable sections,
bad `int(...)`, non-dict metadata) appear as `.error`. -/
def validate_research_ir (ir : List (String × PyVal)) (now : String) :
    Except String (ResearchIR × List String) :=
  match pyIter (dgetD ir "facts" (.list [])) with
  | .error e => .error e
  | .ok factVals =>
    let (facts, w1) := normLoop normalizeFact 0 factVals
    match pyIter (dgetD ir "options" (.list [])) with
    | .error e => .error e
    | .ok optionVals =>
      match normalizeOptions 0 optionVals with
      | .error e => .error e
      | .ok (options, w2) =>
        match pyIter (dgetD ir "risks" (.list [])) with
        | .error e => .error e
        | .ok riskVals =>
          let (risks, w3) := normLoop normalizeRisk 0 riskVals
          match pyIter (dgetD ir "unknowns" (.list [])) with
          | .error e => .error e
          | .ok unknownVals =>
            let (unknowns, w4) := normLoop normalizeUnknown 0 unknownVals
            match normalizeMetadata (dgetD ir "metadata" (.dict [])) now with
            | .error e => .error e
            | .ok metadata =>
                let wFinal :=
                  if facts.isEmpty then ["No facts extracted (empty facts list)"] else []
                .ok ({ facts := facts, options := options, risks := risks,
                       unknowns := unknowns, metadata := metadata },
                     w1 ++ w2 ++ w3 ++ w4 ++ wFinal)

/-! ## A model of `json.loads`

Recursive-descent parser over the character list, with a fuel argument
(each recursive call consumes at least one character, so the generous
fuel passed by `jsonLoads` never runs out on inputs that Python would
accept).  JSON numbers are modelled as integers: fractional and exponent
literals are rejected, a divergence no claim below depends on. -/

def isWsB (c : Char) : Bool :=
  c = ' ' || c = '\t' || c = '\n' || c = '\r'

def skipWs : List Char → List Char
  | [] => []
  | c :: cs => if isWsB c then skipWs cs else c :: cs

def hexVal (c : Char) : Option Nat :=
  if c.isDigit then some (c.toNat - 48)
  else if 'a' ≤ c && c ≤ 'f' then some (c.toNat - 87)
  else if 'A' ≤ c && c ≤ 'F' then some (c.toNat - 55)
  else Option.none

def escMap (c : Char) : Option Char :=
  if c = '"' then some '"'
  else if c = '\\' then some '\\'
  else if c = '/' then some '/'
  else if c = 'b' then some (Char.ofNat 8)
  else if c = 'f' then some (Char.ofNat 12)
  else if c = 'n' then some '\n'
  else if c = 'r' then some '\r'
  else if c = 't' then some '\t'
  else Option.none

/-- String body after the opening quote (surrogate pairing of `\uXXXX`
escapes is not modelled). -/
def parseStrBody : List Char → Except String (List Char × List Char)
  | [] => .error "Unterminated string"
  | '"' :: cs => .ok ([], cs)
  | '\\' :: 'u' :: h1 :: h2 :: h3 :: h4 :: cs =>
      (match hexVal h1, hexVal h2, hexVal h3, hexVal h4 with
       | some a, some b, some c, some d =>
          match parseStrBody cs with
          | .ok (s, r) => .ok (Char.ofNat (a * 4096 + b * 256 + c * 16 + d) :: s, r)
          | .error e => .error e
       | _, _, _, _ => .error "Invalid unicode escape")
  | '\\' :: e :: cs =>
      (match escMap e with
       | some c =>
          match parseStrBody cs with
          | .ok (s, r) => .ok (c :: s, r)
          | .error err => .error err
       | Option.none => .error "Invalid escape")
  | '\\' :: [] => .error "Unterminated string"
  | c :: cs =>
      if c.toNat < 32 then .error "Invalid control character"
      else
        match parseStrBody cs with
        | .ok (s, r) => .ok (c :: s, r)
        | .error e => .error e

def takeDigits : List Char → List Char × List Char
  | [] => ([], [])
  | c :: cs =>
      if c.isDigit then
        let (d, r) := takeDigits cs
        (c :: d, r)
      else ([], c :: cs)

/-- Integer literal at the head of the input. -/
def parseNum (cs : List Char) : Except String (PyVal × List Char) :=
  let (neg, body) :=
    match cs with
    | '-' :: rest => (true, rest)
    | _ => (false, cs)
  match takeDigits body with
  | ([], _) => .error "Expecting value"
  | (ds, rest) =>
      match rest with
      | '.' :: _ => .error "float literal outside model"
      | 'e' :: _ => .error "float literal outside model"
      | 'E' :: _ => .error "float literal outside model"
      | _ =>
          match digitsToNat ds with
          | some n => .ok (.int (if neg then -(n : Int) else (n : Int)), rest)
          | Option.none => .error "Expecting value"

mutual

def parseVal : Nat → List Char → Except String (PyVal × List Char)
  | 0, _ => .error "fuel exhausted"
  | Nat.succ f, cs =>
      match skipWs cs with
      | [] => .error "Expecting value"
      | '\x7b' :: rest => parseObjBody f rest
      | '[' :: rest => parseArrBody f rest
      | '"' :: rest =>
          (match parseStrBody rest with
           | .ok (s, r) => .ok (.str ⟨s⟩, r)
           | .error e => .error e)
      | 't' :: 'r' :: 'u' :: 'e' :: r => .ok (.bool true, r)
      | 'f' :: 'a' :: 'l' :: 's' :: 'e' :: r => .ok (.bool false, r)
      | 'n' :: 'u' :: 'l' :: 'l' :: r => .ok (.none, r)
      | c :: rest =>
          if c = '-' || c.isDigit then parseNum (c :: rest) else .error "Expecting value"

def parseObjBody : Nat → List Char → Except String (PyVal × List Char)
  | 0, _ => .error "fuel exhausted"
  | Nat.succ f, cs =>
      match skipWs cs with
      | '\x7d' :: r => .ok (.dict [], r)
      | rest => parseMembers f rest []

def parseMembers : Nat → List Char → List (String × PyVal) →
    Except String (PyVal × List Char)
  | 0, _, _ => .error "fuel exhausted"
  | Nat.succ f, cs, acc =>
      match skipWs cs with
      | '"' :: rest =>
          (match parseStrBody rest with
           | .error e => .error e
           | .ok (k, r1) =>
              match skipWs r1 with
              | ':' :: r2 =>
                  (match parseVal f r2 with
                   | .error e => .error e
                   | .ok (v, r3) =>
                      let acc := dset acc ⟨k⟩ v
                      match skipWs r3 with
                      | ',' :: r4 => parseMembers f r4 acc
                      | '\x7d' :: r4 => .ok (.dict acc, r4)
                      | _ => .error "Expecting delimiter")
              | _ => .error "Expecting colon")
      | _ => .error "Expecting property name"

def parseArrBody : Nat → List Char → Except String (PyVal × List Char)
  | 0, _ => .error "fuel exhausted"
  | Nat.succ f, cs =>
      match skipWs cs with
      | ']' :: r => .ok (.list [], r)
      | rest => parseElems f rest []

def parseElems : Nat → List Char → List PyVal → Except String (PyVal × List Char)
  | 0, _, _ => .error "fuel exhausted"
  | Nat.succ f, cs, acc =>
      match parseVal f cs with
      | .error e => .error e
      | .ok (v, r1) =>
          match skipWs r1 with
          | ',' :: r2 => parseElems f r2 (acc ++ [v])
          | ']' :: r2 => .ok (.list (acc ++ [v]), r2)
          | _ => .error "Expecting delimiter"

end

/-- `json.loads` (whole-input parse). -/
def jsonLoads (s : String) : Except String PyVal :=
  match parseVal (2 * s.data.length + 8) s.data with
  | .error e => .error e
  | .ok (v, rest) =>
      match skipWs rest with
      | [] => .ok v
      | _ => .error "Extra data"

/-! ## `extract_facts_and_risks_v2` (app.py:482-618) -/

/-- One step of `re.sub` with the pattern matching a code fence: the
first alternative is a literal fence-with-language marker followed by
whitespace, the second is whitespace followed by a bare fence. -/
def stripFencesGo : Nat → List Char → List Char
  | 0, cs => cs
  | _ + 1, [] => []
  | f + 1, c :: rest =>
      if listIsPrefixB ("```json".data) (c :: rest) then
        stripFencesGo f (((c :: rest).drop 7).dropWhile isWsB)
      else
        let ws := (c :: rest).takeWhile isWsB
        let after := (c :: rest).drop ws.length
        if listIsPrefixB ("```".data) after then stripFencesGo f (after.drop 3)
        else c :: stripFencesGo f rest

/-- The `re.sub` stripping code fences in `extract_facts_and_risks_v2`
and `analyze_question_for_routing`. -/
def removeCodeFences (s : String) : String :=
  ⟨stripFencesGo (s.data.length + 1) s.data⟩

/-- `re.sub` of a comma, optional whitespace and a closing bracket by
the bare closing bracket (the trailing-separator repair pass). -/
def dropTrailingCommaGo (close : Char) : Nat → List Char → List Char
  | 0, cs => cs
  | _ + 1, [] => []
  | f + 1, c :: rest =>
      if c = ',' then
        let ws := rest.takeWhile isWsB
        let after := rest.drop ws.length
        match after with
        | b :: r2 =>
            if b = close then close :: dropTrailingCommaGo close f r2
            else c :: dropTrailingCommaGo close f rest
        | [] => c :: dropTrailingCommaGo close f rest
      else c :: dropTrailingCommaGo close f rest

def dropTrailingComma (close : Char) (s : String) : String :=
  ⟨dropTrailingCommaGo close (s.data.length + 1) s.data⟩

/-- The one-shot JSON repair pass: single quotes to double quotes, then
trailing separators before closing brackets removed. -/
def fixJson (s : String) : String :=
  let s1 : String := ⟨s.data.map fun c => if c = aposChar then '"' else c⟩
  dropTrailingComma ']' (dropTrailingComma '\x7d' s1)

/-- Tail of `extract_facts_and_risks_v2` after a successful parse: the
parsed value goes through `validate_research_ir`; any exception there
(including the `AttributeError` from a non-dict parse result) is caught
by the enclosing `except` and turned into a `(None, …, str(e))`
return. -/
def validateParsed (d : PyVal) (now raw : String) : Option ResearchIR × String :=
  match d with
  | .dict kvs =>
      match validate_research_ir kvs now with
      | .ok (ir, _) => (some ir, raw)
      | .error e => (Option.none, e)
  | _ => (Option.none, "AttributeError: object has no attribute get")

/-- `extract_facts_and_risks_v2`, modelled from the model response text
on (`rawText` is the extracted response text; the first component is
`ir_dict or None` and the second the returned raw text or, on an
exception path, `str(e)`). -/
def extract_facts_and_risks_v2 (rawText : String) (now : String) :
    Option ResearchIR × String :=
  let raw := strTrim rawText
  let jsonText := removeCodeFences raw
  match jsonLoads jsonText with
  | .ok d => validateParsed d now raw
  | .error _ =>
      match jsonLoads (fixJson jsonText) with
      | .ok d => validateParsed d now raw
      | .error _ => (Option.none, raw)

/-! ## `router.py` -/

/-- The fixed fallback classification of `analyze_question_for_routing`
(router.py:31-39). -/
def safe_default : List (String × PyVal) :=
  [("domain", .str "general"),
   ("complexity", .str "medium"),
   ("risk_level", .str "medium"),
   ("needs_research", .bool true),
   ("needs_cross_check", .bool false),
   ("needs_x_search", .bool false),
   ("notes", .str "Default (classification not performed)")]

/-- `analyze_question_for_routing` (router.py:11-152), modelled from the
classifier call outcome on: `.error` is a raised transport error (caught
by the final `except` handlers), `.ok text` the extracted response text.
A parse result that is not a dict makes `classification.setdefault`
raise `AttributeError`, also caught by the final handler. -/
def analyze_question_for_routing (callResult : Except String String) :
    List (String × PyVal) :=
  match callResult with
  | .error _ => safe_default
  | .ok resultText =>
      if resultText = "" then safe_default
      else
        match jsonLoads (removeCodeFences (strTrim resultText)) with
        | .error _ => safe_default
        | .ok (.dict kvs) =>
            let c := dsetdefault kvs "domain" (.str "general")
            let c := dsetdefault c "complexity" (.str "medium")
            let c := dsetdefault c "risk_level" (.str "medium")
            let c := dsetdefault c "needs_research" (.bool true)
            let c := dsetdefault c "needs_cross_check" (.bool false)
            let c := dsetdefault c "needs_x_search" (.bool false)
            let c := dsetdefault c "notes" (.str "")
            let c :=
              if vIn (dget c "complexity") ["low", "medium", "high"] then c
              else dset c "complexity" (.str "medium")
            let c :=
              if vIn (dget c "risk_level") ["low", "medium", "high"] then c
              else dset c "risk_level" (.str "medium")
            c
        | .ok _ => safe_default

/-- The pipeline configuration dict of `route_question_to_pipeline`,
as a record (field per key of the Python dict). -/
structure PipelineConfig where
  mode_name : String
  enable_research : Bool
  enable_meta : Bool
  enable_strict : Bool
  use_search : Bool
  candidate_count : Nat
  use_grok : Bool
  use_claude : Bool
  use_o4_mini : Bool
  use_x_search : Bool
  routing_reason : String

/-- The `pipeline` dict initializer (router.py:173-185). -/
def defaultPipeline : PipelineConfig :=
  { mode_name := "medium", enable_research := false, enable_meta := false,
    enable_strict := false, use_search := true, candidate_count := 1,
    use_grok := false, use_claude := false, use_o4_mini := false,
    use_x_search := false, routing_reason := "" }

/-- `route_question_to_pipeline` (router.py:155-241). -/
def route_question_to_pipeline (classification : List (String × PyVal)) :
    PipelineConfig :=
  let risk := dgetD classification "risk_level" (.str "medium")
  let complexity := dgetD classification "complexity" (.str "medium")
  let domain := dgetD classification "domain" (.str "general")
  let needs_research := dgetD classification "needs_research" (.bool true)
  let needs_cross := dgetD classification "needs_cross_check" (.bool false)
  let needs_x := dgetD classification "needs_x_search" (.bool false)
  let p :=
    if pyEqStr risk "high" || vIn domain ["medical", "legal", "finance"] then
      { defaultPipeline with
          mode_name := "full_verify", enable_research := true, enable_meta := true,
          enable_strict := true, use_grok := true, use_claude := true,
          use_o4_mini := true,
          routing_reason :=
            "高リスク質問（" ++ pyStr domain ++ ", risk=" ++ pyStr risk ++
              "）→ フル検証パイプライン（research+meta+strict+全モデル）" }
    else if pyEqStr complexity "high" || pyTruthy needs_cross then
      { defaultPipeline with
          mode_name := "research_meta", enable_research := true, enable_meta := true,
          enable_strict := false, use_grok := true,
          use_claude := pyEqStr complexity "high", use_o4_mini := false,
          routing_reason :=
            "高複雑度（" ++ pyStr complexity ++ "）→ リサーチ+メタ質問パイプライン" }
    else if pyEqStr complexity "medium" || pyTruthy needs_research then
      { defaultPipeline with
          mode_name := "research", enable_research := true, enable_meta := false,
          enable_strict := false, use_grok := false,
          routing_reason :=
            "中複雑度（" ++ pyStr complexity ++ "）→ 基本リサーチパイプライン" }
    else
      { defaultPipeline with
          mode_name := "light", enable_research := false, enable_meta := false,
          enable_strict := false,
          routing_reason :=
            "低複雑度・低リスク（" ++ pyStr complexity ++ "/" ++ pyStr risk ++
              "）→ 軽量モード（コスト節約）" }
  if pyTruthy needs_x || pyEqStr domain "news" then
    { p with use_x_search := true, use_grok := true,
             routing_reason := p.routing_reason ++ " + X検索強化" }
  else p

/-! ## `app.py` — consultant tasks (lines 2782-2893) -/

/-- The closed-over state the three task bodies read (credential
presence is modelled as a boolean). -/
structure ConsultCtx where
  enableMeta : Bool
  openrouterKey : Bool
  responseMode : String
  awsAccessKey : Bool
  awsSecretKey : Bool
  githubToken : Bool
  factSummary : String
  riskSummary : String
  researchText : String
  prompt : String

/-- Result dict of `run_grok_task`. -/
structure GrokResult where
  status : String
  thought : String
  error : Option String

/-- Result dict of `run_claude_task`. -/
structure ClaudeResult where
  status : String
  thought : String
  usage : PyVal
  error : Option String

/-- Result dict of `run_o4mini_task`. -/
structure O4MiniResult where
  status : String
  thought : String
  input_len : Nat
  error : Option String

/-- `run_grok_task` (app.py:2782-2794); `oracle` is the outcome of the
`think_with_grok` call (`.error` models a raised exception). -/
def run_grok_task (ctx : ConsultCtx) (oracle : Except String String) : GrokResult :=
  if !(ctx.enableMeta && ctx.openrouterKey) then
    { status := "skipped", thought := "", error := Option.none }
  else
    match oracle with
    | .error e => { status := "error", thought := "", error := some e }
    | .ok r =>
        let result := strTrim r
        if result ≠ "" then { status := "success", thought := result, error := Option.none }
        else { status := "empty", thought := "", error := Option.none }

/-- `run_claude_task` (app.py:2796-2812); the oracle yields the
`(thought, usage)` pair of `think_with_claude45_bedrock`. -/
def run_claude_task (ctx : ConsultCtx) (oracle : Except String (String × PyVal)) :
    ClaudeResult :=
  let isAzMode := strContains ctx.responseMode "Az"
  if !(isAzMode && ctx.awsAccessKey && ctx.awsSecretKey) then
    { status := "skipped", thought := "", usage := .dict [], error := Option.none }
  else
    match oracle with
    | .error e => { status := "error", thought := "", usage := .dict [], error := some e }
    | .ok (thought, usage) =>
        let t := if thought ≠ "" then strTrim thought else ""
        if t ≠ "" && !strStartsWith t "Error" then
          { status := "success", thought := t, usage := usage, error := Option.none }
        else
          { status := "error", thought := t, usage := .dict [], error := Option.none }

/-- `run_o4mini_task` (app.py:2814-2831); the oracle yields the used
component of the `think_with_o4_mini` result. -/
def run_o4mini_task (ctx : ConsultCtx) (oracle : Except String String) : O4MiniResult :=
  let safeText :=
    if ctx.factSummary ≠ "" then
      strTake ctx.factSummary 1500 ++ "\n\n" ++ strTake ctx.riskSummary 1500
    else strTake ctx.researchText 3000
  let inputLen := strLen (ctx.prompt ++ "\n\n" ++ safeText)
  let isMsAzMode := strContains ctx.responseMode "ms/Az"
  if !(isMsAzMode && ctx.githubToken && decide (inputLen ≤ 3800)) then
    { status := "skipped", thought := "", input_len := inputLen, error := Option.none }
  else
    match oracle with
    | .error e => { status := "error", thought := "", input_len := inputLen, error := some e }
    | .ok thought =>
        let t := if thought ≠ "" then strTrim thought else ""
        if t ≠ "" && !strStartsWith t "Error" then
          { status := "success", thought := t, input_len := inputLen, error := Option.none }
        else
          { status := "error", thought := t, input_len := inputLen, error := Option.none }

/-- The `ThreadPoolExecutor` fan-out (app.py:2844-2893): the three tasks
are submitted independently; the `as_completed` loop only copies each
task's returned dict into per-role variables, so the joined result is
the triple of the three task results, each a function of its own oracle
only. -/
def consultantPool (ctx : ConsultCtx) (og : Except String String)
    (oc : Except String (String × PyVal)) (oo : Except String String) :
    GrokResult × ClaudeResult × O4MiniResult :=
  (run_grok_task ctx og, run_claude_task ctx oc, run_o4mini_task ctx oo)

/-! ## `app.py` — Phase 2 synthesis retry loop (lines 3090-3160) -/

/-- Outcome of one `client.models.generate_content` synthesis call:
either a response (extracted text plus its `finish_reason` rendering) or
a raised exception message. -/
inductive CallOutcome where
  | success (text : String) (finishReason : String)
  | failure (msg : String)

/-- The quota-class test of both retry loops:
`"quota" in str(e).lower() or "rate" in … or "resource" in …`. -/
def isQuotaError (msg : String) : Bool :=
  let m := strToLower msg
  strContains m "quota" || strContains m "rate" || strContains m "resource"

/-- The degraded fallback draft built when Phase 2 exhausts its retries
(app.py:3143). -/
def phase2DegradedDraft (researchText : String) : String :=
  "**⚠️ 統合フェーズがクォータ制限により中断されました**\n\n### 収集した情報（Phase 1）:\n\n"
    ++ strTake researchText 3000 ++ "..."

/-- The post-loop fallback for a `None` draft (app.py:3148, dead code
for three attempts but part of the source). -/
def phase2NoneDraft (researchText : String) : String :=
  "**⚠️ Phase 2エラー**\n\n" ++ strTake researchText 2000 ++ "..."

/-- Result of the Phase 2 block: either control continues past the cost
accounting with a draft answer, or an exception escapes the block; the
delay list records the `time.sleep` durations in order. -/
inductive Phase2Result where
  | continued (draft : String) (delays : List Nat)
  | raised (msg : String) (delays : List Nat)

/-- Truncation handling inside a successful attempt (app.py:3105-3130):
when the finish reason signals a length cut, one continuation call is
appended (or a failure note when that call raises). -/
def phase2Draft (text finishReason : String) (cont : Except String String) : String :=
  let fr := strToUpper finishReason
  if strContains fr "MAX_TOKENS" || strContains fr "LENGTH" then
    match cont with
    | .ok ct => text ++ "\n\n" ++ ct
    | .error _ => text ++ "\n\n*（続きの取得に失敗しました）*"
  else text

/-- After the `for attempt in range(max_retries)` loop, the code first
repairs a `None` draft (app.py:3147-3148) and then unconditionally
evaluates `synthesis_resp.usage_metadata` (app.py:3151): when every
attempt raised, `synthesis_resp` is still `None` and that attribute
access raises, discarding the degraded draft. -/
def phase2AfterLoop (draftOpt : Option String) (respObtained : Bool)
    (delays : List Nat) (researchText : String) : Phase2Result :=
  let draft :=
    match draftOpt with
    | some d => d
    | Option.none => phase2NoneDraft researchText
  if respObtained then .continued draft delays
  else .raised "AttributeError: NoneType object has no attribute usage_metadata" delays

/-- The Phase 2 attempt loop (app.py:3096-3145); `oc` gives the outcome
of each attempt's synthesis call, `cont` the outcome of the (at most
one) continuation call, and the `attempts` list carries the remaining
`range(max_retries)` indices. -/
def phase2Go (oc : Nat → CallOutcome) (cont : Except String String)
    (researchText : String) :
    List Nat → List Nat → Option String → Bool → Phase2Result
  | [], delays, draftOpt, respObtained =>
      phase2AfterLoop draftOpt respObtained delays researchText
  | a :: rest, delays, draftOpt, respObtained =>
      match oc a with
      | .success text finishReason =>
          phase2AfterLoop (some (phase2Draft text finishReason cont)) true delays
            researchText
      | .failure m =>
          if isQuotaError m then
            if a < 3 - 1 then
              phase2Go oc cont researchText rest (delays ++ [(a + 1) * 15 + 15])
                draftOpt respObtained
            else
              phase2Go oc cont researchText rest delays
                (some (phase2DegradedDraft researchText)) respObtained
          else .raised m delays

/-- The whole Phase 2 synthesis block with `max_retries = 3`. -/
def phase2Synthesis (oc : Nat → CallOutcome) (cont : Except String String)
    (researchText : String) : Phase2Result :=
  phase2Go oc cont researchText [0, 1, 2] [] Option.none false

/-! ## `app.py` — Phase 3 review retry loop (lines 3240-3264) -/

/-- Result of the Phase 3 review loop: either control continues with a
final answer, or an exception escapes the loop. -/
inductive Phase3Result where
  | continued (finalAnswer : String) (delays : List Nat)
  | raised (msg : String) (delays : List Nat)

/-- The Phase 3 attempt loop (app.py:3243-3264); `oc` gives each review
call's outcome and `draft` is the Phase 2 draft answer.  The `[]` /
`none` case models falling off the loop with `final_answer` unassigned
(unreachable from three attempts: the last attempt either breaks,
assigns the draft, or raises). -/
def phase3Go (oc : Nat → Except String String) (draft : String) :
    List Nat → List Nat → Option String → Phase3Result
  | [], delays, finalOpt =>
      match finalOpt with
      | some f => .continued f delays
      | Option.none => .raised "NameError: final_answer is not defined" delays
  | a :: rest, delays, finalOpt =>
      match oc a with
      | .ok text => .continued text delays
      | .error m =>
          if isQuotaError m then
            if a < 3 - 1 then
              phase3Go oc draft rest (delays ++ [(a + 1) * 15 + 5]) finalOpt
            else phase3Go oc draft rest delays (some draft)
          else .raised m delays

/-- The whole Phase 3 review retry loop with `max_retries = 3`. -/
def phase3Review (oc : Nat → Except String String) (draft : String) : Phase3Result :=
  phase3Go oc draft [0, 1, 2] [] Option.none

/-! ## Derived notions used by the statements -/

/-- The schema invariant of §3 of the spec: every enum field holds a
member of its declared set. -/
def NormalizedIR (r : ResearchIR) : Prop :=
  (∀ f ∈ r.facts, f.source ∈ sourceEnum ∧ f.confidence ∈ confidenceEnum) ∧
  (∀ k ∈ r.risks, k.severity ∈ confidenceEnum ∧ k.timeframe ∈ timeframeEnum) ∧
  (∀ u ∈ r.unknowns, u.why_unknown ∈ whyUnknownEnum ∧ u.impact ∈ confidenceEnum)

/-- The runtime dict value of a normalized fact: the dict literal of
research_ir.py:107-113 (exact keys, in source order). -/
def factIRToPyVal (f : FactIR) : PyVal :=
  .dict [("statement", .str f.statement), ("source", .str f.source),
         ("source_detail", .str f.source_detail), ("date", f.date),
         ("confidence", .str f.confidence)]

/-- The dict literal of research_ir.py:129-135. -/
def optionIRToPyVal (o : OptionIR) : PyVal :=
  .dict [("name", .str o.name), ("pros", .list (o.pros.map .str)),
         ("cons", .list (o.cons.map .str)),
         ("conditions", .list (o.conditions.map .str)),
         ("estimated_cost", o.estimated_cost)]

/-- The dict literal of research_ir.py:148-153. -/
def riskIRToPyVal (r : RiskIR) : PyVal :=
  .dict [("statement", .str r.statement), ("severity", .str r.severity),
         ("timeframe", .str r.timeframe), ("mitigation", r.mitigation)]

/-- The dict literal of research_ir.py:170-174. -/
def unknownIRToPyVal (u : UnknownIR) : PyVal :=
  .dict [("question", .str u.question), ("why_unknown", .str u.why_unknown),
         ("impact", .str u.impact)]

/-- The dict literal of research_ir.py:185-192. -/
def metadataIRToPyVal (m : ResearchMetadataIR) : PyVal :=
  .dict [("question", .str m.question), ("language", .str m.language),
         ("created_at", .str m.created_at), ("models", .list (m.models.map .str)),
         ("sources_count", .int m.sources_count),
         ("search_queries", .list (m.search_queries.map .str))]

/-- The top-level dict value of a `ResearchIR` (research_ir.py:92-98),
used to feed a validator output back into the validator. -/
def researchIRToDict (r : ResearchIR) : List (String × PyVal) :=
  [("facts", .list (r.facts.map factIRToPyVal)),
   ("options", .list (r.options.map optionIRToPyVal)),
   ("risks", .list (r.risks.map riskIRToPyVal)),
   ("unknowns", .list (r.unknowns.map unknownIRToPyVal)),
   ("metadata", metadataIRToPyVal r.metadata)]

/-- `v` is a Python dict. -/
def isDictB : PyVal → Bool
  | .dict _ => true
  | _ => false

/-- Key list of a dict value. -/
def pyKeys : PyVal → Option (List String)
  | .dict kvs => some (kvs.map Prod.fst)
  | _ => Option.none

/-! ## Lemmas about the validator -/

theorem enumCoerce_mem (enum : List String) (fallback : String)
    (hf : fallback ∈ enum) (o : Option PyVal) :
    enumCoerce enum fallback o ∈ enum := by
  rcases o with - | v
  · exact hf
  · cases v with
    | str s =>
        simp only [enumCoerce]
        split
        · next hc => simpa using hc
        · exact hf
    | _ => exact hf

/-- An absent or out-of-set value is coerced to the fallback. -/
theorem enumCoerce_invalid (enum : List String) (fallback : String)
    (o : Option PyVal) (h : vIn (o.getD .none) enum = false) :
    enumCoerce enum fallback o = fallback := by
  rcases o with - | v
  · rfl
  · cases v with
    | str s => simp_all [enumCoerce, vIn]
    | _ => rfl

/-- An in-set value is kept verbatim. -/
theorem enumCoerce_valid (enum : List String) (fallback s : String)
    (h : s ∈ enum) : enumCoerce enum fallback (some (.str s)) = s := by
  simp [enumCoerce, h]

theorem normalizeFact_sound (i : Nat) (v : PyVal) (f : FactIR) (w : List String)
    (h : normalizeFact i v = (some f, w)) :
    f.source ∈ sourceEnum ∧ f.confidence ∈ confidenceEnum := by
  cases v with
  | dict kvs =>
      simp only [normalizeFact] at h
      obtain ⟨h1, -⟩ := Prod.mk.injEq .. |>.mp h
      obtain rfl := Option.some.inj h1
      exact ⟨enumCoerce_mem _ _ (by simp [sourceEnum]) _,
             enumCoerce_mem _ _ (by simp [confidenceEnum]) _⟩
  | none => simp [normalizeFact] at h
  | bool b => simp [normalizeFact] at h
  | int n => simp [normalizeFact] at h
  | str s => simp [normalizeFact] at h
  | list l => simp [normalizeFact] at h

theorem normalizeRisk_sound (i : Nat) (v : PyVal) (r : RiskIR) (w : List String)
    (h : normalizeRisk i v = (some r, w)) :
    r.severity ∈ confidenceEnum ∧ r.timeframe ∈ timeframeEnum := by
  cases v with
  | dict kvs =>
      simp only [normalizeRisk] at h
      obtain ⟨h1, -⟩ := Prod.mk.injEq .. |>.mp h
      obtain rfl := Option.some.inj h1
      exact ⟨enumCoerce_mem _ _ (by simp [confidenceEnum]) _,
             enumCoerce_mem _ _ (by simp [timeframeEnum]) _⟩
  | none => simp [normalizeRisk] at h
  | bool b => simp [normalizeRisk] at h
  | int n => simp [normalizeRisk] at h
  | str s => simp [normalizeRisk] at h
  | list l => simp [normalizeRisk] at h

theorem normalizeUnknown_sound (i : Nat) (v : PyVal) (u : UnknownIR) (w : List String)
    (h : normalizeUnknown i v = (some u, w)) :
    u.why_unknown ∈ whyUnknownEnum ∧ u.impact ∈ confidenceEnum := by
  cases v with
  | dict kvs =>
      simp only [normalizeUnknown] at h
      obtain ⟨h1, -⟩ := Prod.mk.injEq .. |>.mp h
      obtain rfl := Option.some.inj h1
      exact ⟨enumCoerce_mem _ _ (by simp [whyUnknownEnum]) _,
             enumCoerce_mem _ _ (by simp [confidenceEnum]) _⟩
  | none => simp [normalizeUnknown] at h
  | bool b => simp [normalizeUnknown] at h
  | int n => simp [normalizeUnknown] at h
  | str s => simp [normalizeUnknown] at h
  | list l => simp [normalizeUnknown] at h

/-- Everything kept by a skip-loop satisfies any property its step
guarantees for kept elements. -/
theorem normLoop_sound {α : Type} (step : Nat → PyVal → Option α × List String)
    (P : α → Prop) (hstep : ∀ i v x w, step i v = (some x, w) → P x) :
    ∀ (i : Nat) (vs : List PyVal), ∀ x ∈ (normLoop step i vs).1, P x := by
  intro i vs
  induction vs generalizing i with
  | nil => simp [normLoop]
  | cons v vs ih =>
      intro x hx
      simp only [normLoop] at hx
      rcases hs : step i v with ⟨x?, w⟩
      rw [hs] at hx
      rcases x? with - | y
      · exact ih (i + 1) x hx
      · rcases List.mem_cons.mp hx with rfl | hx
        · exact hstep i v x w hs
        · exact ih (i + 1) x hx

/-- Every `ResearchIR` returned by the validator satisfies the enum
invariant. -/
theorem validate_research_ir_sound (ir : List (String × PyVal)) (now : String)
    (out : ResearchIR) (w : List String)
    (h : validate_research_ir ir now = .ok (out, w)) : NormalizedIR out := by
  simp only [validate_research_ir] at h
  repeat first
    | exact Except.noConfusion h
    | split at h
  all_goals
    obtain ⟨h1, -⟩ := Prod.mk.injEq .. |>.mp (Except.ok.inj h)
    subst h1
    exact ⟨fun f hf => normLoop_sound _ _ (fun i v x w hw => normalizeFact_sound i v x w hw) _ _ f hf,
           fun r hr => normLoop_sound _ _ (fun i v x w hw => normalizeRisk_sound i v x w hw) _ _ r hr,
           fun u hu => normLoop_sound _ _ (fun i v x w hw => normalizeUnknown_sound i v x w hw) _ _ u hu⟩

/-! ## Claim C1 -/

/-- C1 (amended): every enum field of a `ResearchIR` returned by
`validate_research_ir` holds only a member of its declared set, and an
unrecognized or missing value of `confidence`, `severity`, `timeframe`,
`why_unknown` or `impact` is coerced to `"unknown"`, while an
unrecognized or missing fact `source` is coerced to `"model"` (the
`source` enum has no `"unknown"` member); no enum field is ever left
absent or out of set. -/
theorem c1_enum_fields_amended :
    (∀ (ir : List (String × PyVal)) (now : String) (out : ResearchIR) (w : List String),
        validate_research_ir ir now = .ok (out, w) → NormalizedIR out) ∧
    (∀ (i : Nat) (kvs : List (String × PyVal)) (f : FactIR) (w : List String),
        normalizeFact i (.dict kvs) = (some f, w) →
        (vIn (dget kvs "source") sourceEnum = false → f.source = "model") ∧
        (vIn (dget kvs "confidence") confidenceEnum = false → f.confidence = "unknown")) ∧
    (∀ (i : Nat) (kvs : List (String × PyVal)) (r : RiskIR) (w : List String),
        normalizeRisk i (.dict kvs) = (some r, w) →
        (vIn (dget kvs "severity") confidenceEnum = false → r.severity = "unknown") ∧
        (vIn (dget kvs "timeframe") timeframeEnum = false → r.timeframe = "unknown")) ∧
    (∀ (i : Nat) (kvs : List (String × PyVal)) (u : UnknownIR) (w : List String),
        normalizeUnknown i (.dict kvs) = (some u, w) →
        (vIn (dget kvs "why_unknown") whyUnknownEnum = false → u.why_unknown = "unknown") ∧
        (vIn (dget kvs "impact") confidenceEnum = false → u.impact = "unknown")) := by
  refine ⟨validate_research_ir_sound, ?_, ?_, ?_⟩
  · intro i kvs f w h
    simp only [normalizeFact] at h
    obtain ⟨h1, -⟩ := Prod.mk.injEq .. |>.mp h
    obtain rfl := Option.some.inj h1
    exact ⟨fun hv => enumCoerce_invalid _ _ _ hv, fun hv => enumCoerce_invalid _ _ _ hv⟩
  · intro i kvs r w h
    simp only [normalizeRisk] at h
    obtain ⟨h1, -⟩ := Prod.mk.injEq .. |>.mp h
    obtain rfl := Option.some.inj h1
    exact ⟨fun hv => enumCoerce_invalid _ _ _ hv, fun hv => enumCoerce_invalid _ _ _ hv⟩
  · intro i kvs u w h
    simp only [normalizeUnknown] at h
    obtain ⟨h1, -⟩ := Prod.mk.injEq .. |>.mp h
    obtain rfl := Option.some.inj h1
    exact ⟨fun hv => enumCoerce_invalid _ _ _ hv, fun hv => enumCoerce_invalid _ _ _ hv⟩

/-- C1 counterexample to the claim as stated: an out-of-set fact
`source` is coerced to `"model"`, not to `"unknown"`. -/
theorem c1_counterexample :
    validate_research_ir
        [("facts", PyVal.list [PyVal.dict [("source", PyVal.str "rumor")]])] "T"
      = .ok ({ facts := [{ statement := "", source := "model", source_detail := "",
                           date := .none, confidence := "unknown" }],
               options := [], risks := [], unknowns := [],
               metadata := { question := "", language := "ja", created_at := "T",
                             models := [], sources_count := 0, search_queries := [] } },
             ["Fact 0 has empty statement"]) ∧
    ("model" : String) ≠ "unknown" :=
  ⟨rfl, by decide⟩

/-- The concrete fact dict used by the C1 witness. -/
def c1FactDict : List (String × PyVal) :=
  [("statement", .str "s"), ("source", .str "telepathy"), ("confidence", .str "absolute")]

/-- The concrete risk dict used by the C1 witness. -/
def c1RiskDict : List (String × PyVal) :=
  [("statement", .str "r"), ("severity", .int 3)]

/-- The concrete unknown dict used by the C1 witness. -/
def c1UnknownDict : List (String × PyVal) :=
  [("question", .str "q"), ("impact", .bool true)]

/-- C1 witness: the amended theorem applied at concrete inputs with
out-of-set and missing enum values. -/
theorem c1_witness :
    (validate_research_ir [("facts", PyVal.list [PyVal.dict c1FactDict])] "T"
        = .ok ({ facts := [{ statement := "s", source := "model", source_detail := "",
                             date := .none, confidence := "unknown" }],
                 options := [], risks := [], unknowns := [],
                 metadata := { question := "", language := "ja", created_at := "T",
                               models := [], sources_count := 0, search_queries := [] } },
               []) ∧
      NormalizedIR { facts := [{ statement := "s", source := "model", source_detail := "",
                                 date := .none, confidence := "unknown" }],
                     options := [], risks := [], unknowns := [],
                     metadata := { question := "", language := "ja", created_at := "T",
                                   models := [], sources_count := 0,
                                   search_queries := [] } }) ∧
    (normalizeFact 0 (.dict c1FactDict)
        = (some { statement := "s", source := "model", source_detail := "",
                  date := .none, confidence := "unknown" }, []) ∧
      vIn (dget c1FactDict "source") sourceEnum = false ∧
      vIn (dget c1FactDict "confidence") confidenceEnum = false) ∧
    (normalizeRisk 0 (.dict c1RiskDict)
        = (some { statement := "r", severity := "unknown", timeframe := "unknown",
                  mitigation := .none }, []) ∧
      vIn (dget c1RiskDict "severity") confidenceEnum = false ∧
      vIn (dget c1RiskDict "timeframe") timeframeEnum = false) ∧
    (normalizeUnknown 0 (.dict c1UnknownDict)
        = (some { question := "q", why_unknown := "unknown", impact := "unknown" }, []) ∧
      vIn (dget c1UnknownDict "why_unknown") whyUnknownEnum = false ∧
      vIn (dget c1UnknownDict "impact") confidenceEnum = false) := by
  refine ⟨⟨rfl, c1_enum_fields_amended.1
            [("facts", PyVal.list [PyVal.dict c1FactDict])] "T" _ [] rfl⟩,
          ⟨rfl, ?_, ?_⟩, ⟨rfl, ?_, ?_⟩, ⟨rfl, ?_, ?_⟩⟩ <;> rfl

/-! ## Claims C3 and C10 -/

/-- C3: for every classification with `risk_level` equal to `"high"`,
or with `domain` among medical / legal / finance, the router returns a
pipeline configuration in `full_verify` mode with research,
meta-questions, strict review and all three consultant roles enabled,
regardless of complexity. -/
theorem c3_full_verify (cls : List (String × PyVal))
    (h : alookup cls "risk_level" = some (.str "high") ∨
         ∃ d ∈ (["medical", "legal", "finance"] : List String),
           alookup cls "domain" = some (.str d)) :
    (route_question_to_pipeline cls).mode_name = "full_verify" ∧
    (route_question_to_pipeline cls).enable_research = true ∧
    (route_question_to_pipeline cls).enable_meta = true ∧
    (route_question_to_pipeline cls).enable_strict = true ∧
    (route_question_to_pipeline cls).use_grok = true ∧
    (route_question_to_pipeline cls).use_claude = true ∧
    (route_question_to_pipeline cls).use_o4_mini = true := by
  have hc : (pyEqStr (dgetD cls "risk_level" (.str "medium")) "high"
      || vIn (dgetD cls "domain" (.str "general")) ["medical", "legal", "finance"]) = true := by
    rcases h with h | ⟨d, hd, h⟩
    · simp [dgetD, h, pyEqStr]
    · simp [dgetD, h, vIn]
      exact Or.inr (by simpa using hd)
  simp only [route_question_to_pipeline, hc]
  split <;> simp

/-- C3 witness: a concrete high-risk classification. -/
theorem c3_witness :
    alookup [("risk_level", PyVal.str "high")] "risk_level" = some (PyVal.str "high") ∧
    ((route_question_to_pipeline [("risk_level", PyVal.str "high")]).mode_name = "full_verify" ∧
     (route_question_to_pipeline [("risk_level", PyVal.str "high")]).enable_research = true ∧
     (route_question_to_pipeline [("risk_level", PyVal.str "high")]).enable_meta = true ∧
     (route_question_to_pipeline [("risk_level", PyVal.str "high")]).enable_strict = true ∧
     (route_question_to_pipeline [("risk_level", PyVal.str "high")]).use_grok = true ∧
     (route_question_to_pipeline [("risk_level", PyVal.str "high")]).use_claude = true ∧
     (route_question_to_pipeline [("risk_level", PyVal.str "high")]).use_o4_mini = true) :=
  ⟨rfl, c3_full_verify [("risk_level", PyVal.str "high")] (Or.inl rfl)⟩

/-- C10: for every classification dictionary, the router's four decision
branches are exhaustive: the returned `mode_name` is always one of
`full_verify`, `research_meta`, `research`, `light` — the `"medium"`
placeholder of the initializer is always overwritten. -/
theorem c10_mode_exhaustive (cls : List (String × PyVal)) :
    (route_question_to_pipeline cls).mode_name ∈
      (["full_verify", "research_meta", "research", "light"] : List String) := by
  simp only [route_question_to_pipeline]
  repeat' split
  all_goals simp

/-! ## Claim C7 -/

/-- C7: on every call failure, empty response, JSON parse failure or
non-dict parse result, `analyze_question_for_routing` returns the fixed
safe default (`domain=general`, `complexity=medium`,
`risk_level=medium`, `needs_research=true`, `needs_cross_check=false`,
`needs_x_search=false`) and never propagates the failure. -/
theorem c7_classifier_safe_default :
    (∀ e : String, analyze_question_for_routing (.error e) = safe_default) ∧
    analyze_question_for_routing (.ok "") = safe_default ∧
    (∀ t e, jsonLoads (removeCodeFences (strTrim t)) = .error e →
        analyze_question_for_routing (.ok t) = safe_default) ∧
    (∀ t xs, jsonLoads (removeCodeFences (strTrim t)) = .ok (.list xs) →
        analyze_question_for_routing (.ok t) = safe_default) ∧
    dget safe_default "domain" = .str "general" ∧
    dget safe_default "complexity" = .str "medium" ∧
    dget safe_default "risk_level" = .str "medium" ∧
    dget safe_default "needs_research" = .bool true ∧
    dget safe_default "needs_cross_check" = .bool false ∧
    dget safe_default "needs_x_search" = .bool false := by
  refine ⟨fun e => rfl, rfl, ?_, ?_, rfl, rfl, rfl, rfl, rfl, rfl⟩
  · intro t e h
    by_cases ht : t = ""
    · simp [analyze_question_for_routing, ht]
    · simp [analyze_question_for_routing, ht, h]
  · intro t xs h
    by_cases ht : t = ""
    · simp [analyze_question_for_routing, ht]
    · simp [analyze_question_for_routing, ht, h]

/-- C7 witness: a raised call error, an empty response, unparseable
gibberish and a parseable non-dict all yield the safe default. -/
theorem c7_witness :
    analyze_question_for_routing (.error "boom") = safe_default ∧
    analyze_question_for_routing (.ok "") = safe_default ∧
    (jsonLoads (removeCodeFences (strTrim "notjson")) = .error "Expecting value" ∧
     analyze_question_for_routing (.ok "notjson") = safe_default) ∧
    (jsonLoads (removeCodeFences (strTrim "[]")) = .ok (.list []) ∧
     analyze_question_for_routing (.ok "[]") = safe_default) :=
  ⟨c7_classifier_safe_default.1 "boom",
   c7_classifier_safe_default.2.1,
   ⟨rfl, c7_classifier_safe_default.2.2.1 "notjson" "Expecting value" rfl⟩,
   ⟨rfl, c7_classifier_safe_default.2.2.2.1 "[]" [] rfl⟩⟩

/-! ## Claim C5 -/

/-- C5: consultant tasks are isolated.  An exception raised inside an
enabled task body is caught by that body and recorded as its own
`status="error"` result with the error detail; each component of the
pool join depends only on its own task's oracle; and injecting a
failure into exactly one of the three tasks leaves the two others with
`status="success"` when their calls return usable text. -/
theorem c5_consultant_isolation :
    (∀ ctx e, ctx.enableMeta = true → ctx.openrouterKey = true →
        run_grok_task ctx (.error e)
          = { status := "error", thought := "", error := some e }) ∧
    (∀ ctx e, strContains ctx.responseMode "Az" = true → ctx.awsAccessKey = true →
        ctx.awsSecretKey = true →
        run_claude_task ctx (.error e)
          = { status := "error", thought := "", usage := .dict [], error := some e }) ∧
    (∀ ctx e, strContains ctx.responseMode "ms/Az" = true → ctx.githubToken = true →
        strLen (ctx.prompt ++ "\n\n" ++
          (if ctx.factSummary = "" then strTake ctx.researchText 3000
           else strTake ctx.factSummary 1500 ++ "\n\n" ++ strTake ctx.riskSummary 1500))
          ≤ 3800 →
        (run_o4mini_task ctx (.error e)).status = "error" ∧
        (run_o4mini_task ctx (.error e)).error = some e) ∧
    (∀ ctx og oc oc' oo oo',
        (consultantPool ctx og oc oo).1 = (consultantPool ctx og oc' oo').1) ∧
    (∀ ctx og og' oc oo oo',
        (consultantPool ctx og oc oo).2.1 = (consultantPool ctx og' oc oo').2.1) ∧
    (∀ ctx og og' oc oc' oo,
        (consultantPool ctx og oc oo).2.2 = (consultantPool ctx og' oc' oo).2.2) ∧
    (∀ ctx e t2 u2 t3,
        ctx.enableMeta = true → ctx.openrouterKey = true →
        strContains ctx.responseMode "Az" = true → ctx.awsAccessKey = true →
        ctx.awsSecretKey = true →
        strContains ctx.responseMode "ms/Az" = true → ctx.githubToken = true →
        strLen (ctx.prompt ++ "\n\n" ++
          (if ctx.factSummary = "" then strTake ctx.researchText 3000
           else strTake ctx.factSummary 1500 ++ "\n\n" ++ strTake ctx.riskSummary 1500))
          ≤ 3800 →
        strTrim t2 ≠ "" → strStartsWith (strTrim t2) "Error" = false →
        strTrim t3 ≠ "" → strStartsWith (strTrim t3) "Error" = false →
        (consultantPool ctx (.error e) (.ok (t2, u2)) (.ok t3)).1.status = "error" ∧
        (consultantPool ctx (.error e) (.ok (t2, u2)) (.ok t3)).1.error = some e ∧
        (consultantPool ctx (.error e) (.ok (t2, u2)) (.ok t3)).2.1.status = "success" ∧
        (consultantPool ctx (.error e) (.ok (t2, u2)) (.ok t3)).2.2.status = "success") := by
  refine ⟨?_, ?_, ?_, fun _ _ _ _ _ _ => rfl, fun _ _ _ _ _ _ => rfl,
          fun _ _ _ _ _ _ => rfl, ?_⟩
  · intro ctx e h1 h2
    simp [run_grok_task, h1, h2]
  · intro ctx e hAz h1 h2
    simp [run_claude_task, hAz, h1, h2]
  · intro ctx e hMs hTok hLen
    have hnot := Nat.not_lt.mpr hLen
    simp [run_o4mini_task, hMs, hTok, hnot]
  · intro ctx e t2 u2 t3 h1 h2 hAz h3 h4 hMs hTok hLen ht2 hE2 ht3 hE3
    have hnot := Nat.not_lt.mpr hLen
    have ht2ne : t2 ≠ "" := fun h => ht2 (by rw [h]; rfl)
    have ht3ne : t3 ≠ "" := fun h => ht3 (by rw [h]; rfl)
    refine ⟨?_, ?_, ?_, ?_⟩ <;>
      simp [consultantPool, run_grok_task, run_claude_task, run_o4mini_task,
            h1, h2, hAz, h3, h4, hMs, hTok, hnot, ht2ne, ht3ne, ht2, hE2, ht3, hE3]

/-- The concrete context used by the C5 witness: all three tasks
enabled. -/
def c5Ctx : ConsultCtx :=
  { enableMeta := true, openrouterKey := true, responseMode := "ms/Az",
    awsAccessKey := true, awsSecretKey := true, githubToken := true,
    factSummary := "f", riskSummary := "r", researchText := "", prompt := "q" }

/-- C5 witness: a failure injected into the grok task only, with the
other two oracles succeeding. -/
theorem c5_witness :
    (c5Ctx.enableMeta = true ∧ c5Ctx.openrouterKey = true ∧
     strContains c5Ctx.responseMode "Az" = true ∧
     strContains c5Ctx.responseMode "ms/Az" = true ∧
     strTrim "consult ok" ≠ "" ∧ strTrim "check ok" ≠ "") ∧
    (consultantPool c5Ctx (.error "boom") (.ok ("consult ok", .dict []))
        (.ok "check ok")).1.status = "error" ∧
    (consultantPool c5Ctx (.error "boom") (.ok ("consult ok", .dict []))
        (.ok "check ok")).1.error = some "boom" ∧
    (consultantPool c5Ctx (.error "boom") (.ok ("consult ok", .dict []))
        (.ok "check ok")).2.1.status = "success" ∧
    (consultantPool c5Ctx (.error "boom") (.ok ("consult ok", .dict []))
        (.ok "check ok")).2.2.status = "success" :=
  ⟨⟨rfl, rfl, rfl, rfl, by decide, by decide⟩,
   c5_consultant_isolation.2.2.2.2.2.2 c5Ctx "boom" "consult ok" (.dict []) "check ok"
     rfl rfl rfl rfl rfl rfl rfl (by decide) (by decide) rfl (by decide) rfl⟩

/-! ## Claim C4 -/

/-- C4: the retry schedule behaves as claimed while a retry is still
available — quota failures on the first two attempts produce exactly the
two strictly increasing delays 30 and 45 and the final content is the
succeeding third attempt's text — but at the failing input (quota-class
failures on all three attempts) the degraded draft built from the
research text is immediately discarded: the unguarded
`synthesis_resp.usage_metadata` access right after the loop raises on
the still-`None` response, so an exception leaves the Phase 2 block
instead of the degraded answer. -/
theorem c4_synthesis_retry_bug :
    (phase2Synthesis
        (fun a => if a < 2 then .failure "429 quota exceeded" else .success "third answer" "STOP")
        (.ok "") "research notes"
      = .continued "third answer" [30, 45] ∧ 30 < 45) ∧
    phase2Synthesis (fun _ => .failure "429 quota exceeded") (.ok "") "research notes"
      = .raised "AttributeError: NoneType object has no attribute usage_metadata" [30, 45] ∧
    isQuotaError "429 quota exceeded" = true ∧
    phase2DegradedDraft "research notes"
      = "**⚠️ 統合フェーズがクォータ制限により中断されました**\n\n### 収集した情報（Phase 1）:\n\nresearch notes..." :=
  ⟨⟨rfl, by decide⟩, rfl, rfl, rfl⟩

/-! ## Claim C6 -/

/-- C6 counterexample to the claim as stated: an error raised during the
strict review stage that is not quota-classed (no `quota` / `rate` /
`resource` in its message) is re-raised by the review loop instead of
being absorbed with the prior draft retained. -/
theorem c6_counterexample :
    phase3Review (fun _ => .error "boom") "the draft" = .raised "boom" [] ∧
    isQuotaError "boom" = false :=
  ⟨rfl, rfl⟩

/-- Any error the Phase 3 loop re-raises is not quota-classed (the
unreachable fall-off-the-loop `NameError` included). -/
theorem phase3Go_raised_not_quota (oc : Nat → Except String String) (draft : String) :
    ∀ (as delays : List Nat) (fo : Option String) (m : String) (ds : List Nat),
      phase3Go oc draft as delays fo = .raised m ds → isQuotaError m = false := by
  intro as
  induction as with
  | nil =>
      intro delays fo m ds h
      rcases fo with - | f
      · simp only [phase3Go] at h
        obtain ⟨h1, -⟩ := Phase3Result.raised.injEq .. |>.mp h
        subst h1
        rfl
      · simp only [phase3Go] at h
        exact Phase3Result.noConfusion h
  | cons a rest ih =>
      intro delays fo m ds h
      simp only [phase3Go] at h
      cases hoa : oc a with
      | ok t =>
          rw [hoa] at h
          exact Phase3Result.noConfusion h
      | error me =>
          rw [hoa] at h
          by_cases hq : isQuotaError me
          · simp only [hq, if_true] at h
            split at h <;> exact ih _ _ _ _ h
          · simp only [hq, if_false, Bool.false_eq_true] at h
            obtain ⟨h1, -⟩ := Phase3Result.raised.injEq .. |>.mp h
            subst h1
            simpa using hq

/-- C6 (amended): only rate-limit/quota-class review errors are
absorbed: when all three attempts raise quota-class errors the review
stage is skipped with the prior synthesis draft retained as the final
answer after two increasing delays (20, 35); conversely any error the
loop does propagate is not quota-classed. -/
theorem c6_review_errors_amended :
    (∀ (oc : Nat → Except String String) (draft : String),
        (∀ a, a < 3 → ∃ m, oc a = .error m ∧ isQuotaError m = true) →
        phase3Review oc draft = .continued draft [20, 35]) ∧
    (∀ (oc : Nat → Except String String) (draft m : String) (ds : List Nat),
        phase3Review oc draft = .raised m ds → isQuotaError m = false) := by
  constructor
  · intro oc draft h
    obtain ⟨m0, h0, q0⟩ := h 0 (by decide)
    obtain ⟨m1, h1, q1⟩ := h 1 (by decide)
    obtain ⟨m2, h2, q2⟩ := h 2 (by decide)
    simp [phase3Review, phase3Go, h0, q0, h1, q1, h2, q2]
  · intro oc draft m ds h
    exact phase3Go_raised_not_quota oc draft [0, 1, 2] [] Option.none m ds h

/-- C6 witness: three consecutive quota-class review failures retain the
draft with delays 20 and 35. -/
theorem c6_witness :
    isQuotaError "quota exceeded" = true ∧
    phase3Review (fun _ => .error "quota exceeded") "draft kept"
      = .continued "draft kept" [20, 35] :=
  ⟨rfl, c6_review_errors_amended.1 (fun _ => .error "quota exceeded") "draft kept"
          (fun _ _ => ⟨"quota exceeded", rfl, rfl⟩)⟩

/-! ## Loop lemmas for the skip-with-warning loops -/

/-- Kept-element count and skip warnings of a `normLoop`. -/
theorem normLoop_spec {α : Type} (step : Nat → PyVal → Option α × List String)
    (msg : Nat → String)
    (hsome : ∀ (i : Nat) (kvs : List (String × PyVal)), ((step i (.dict kvs)).1).isSome = true)
    (hskip : ∀ (i : Nat) (v : PyVal), isDictB v = false → step i v = (Option.none, [msg i])) :
    ∀ (vs : List PyVal) (i : Nat),
      (normLoop step i vs).1.length = vs.countP isDictB ∧
      ∀ (j : Nat) (hj : j < vs.length), isDictB (vs.get ⟨j, hj⟩) = false →
        msg (i + j) ∈ (normLoop step i vs).2 := by
  intro vs
  induction vs with
  | nil =>
      intro i
      refine ⟨rfl, ?_⟩
      intro j hj
      exact absurd hj (by simp)
  | cons v rest ih =>
      intro i
      by_cases hd : isDictB v = true
      · cases v with
        | none => simp [isDictB] at hd
        | bool b => simp [isDictB] at hd
        | int n => simp [isDictB] at hd
        | str s => simp [isDictB] at hd
        | list xs => simp [isDictB] at hd
        | dict kvs =>
          have hs := hsome i kvs
          rcases hstep : step i (.dict kvs) with ⟨x?, w1⟩
          rw [hstep] at hs
          rcases x? with - | x
          · exact absurd hs (by simp)
          constructor
          · simp only [normLoop, hstep, List.countP_cons]
            have := (ih (i + 1)).1
            simp [this, isDictB]
          · intro j hj hdj
            cases j with
            | zero => simp [isDictB] at hdj
            | succ j =>
                simp only [normLoop, hstep, List.mem_append]
                right
                have := (ih (i + 1)).2 j (by simpa using hj) (by simpa using hdj)
                simpa [Nat.add_assoc, Nat.add_comm 1 j] using this
      · have hd' : isDictB v = false := by simpa using hd
        have hstep := hskip i v hd'
        constructor
        · simp only [normLoop, hstep, List.countP_cons]
          have := (ih (i + 1)).1
          simp [this, hd']
        · intro j hj hdj
          cases j with
          | zero =>
              simp [normLoop, hstep]
          | succ j =>
              simp only [normLoop, hstep, List.mem_append]
              right
              have := (ih (i + 1)).2 j (by simpa using hj) (by simpa using hdj)
              simpa [Nat.add_assoc, Nat.add_comm 1 j] using this

/-- `normalizeOption` on a dict either raises or keeps the option with
no warning. -/
theorem normalizeOption_dict_shape (i : Nat) (kvs : List (String × PyVal)) :
    (∃ e, normalizeOption i (.dict kvs) = .error e) ∨
    (∃ o, normalizeOption i (.dict kvs) = .ok (some o, [])) := by
  simp only [normalizeOption]
  split
  · exact Or.inl ⟨_, rfl⟩
  · split
    · exact Or.inl ⟨_, rfl⟩
    · split
      · exact Or.inl ⟨_, rfl⟩
      · exact Or.inr ⟨_, rfl⟩

theorem normalizeOptions_spec :
    ∀ (vs : List PyVal) (i : Nat) (res : List OptionIR) (w : List String),
      normalizeOptions i vs = .ok (res, w) →
      res.length = vs.countP isDictB ∧
      ∀ (j : Nat) (hj : j < vs.length), isDictB (vs.get ⟨j, hj⟩) = false →
        s!"Option {i + j} is not a dict, skipping" ∈ w := by
  intro vs
  induction vs with
  | nil =>
      intro i res w h
      simp only [normalizeOptions] at h
      obtain ⟨h1, h2⟩ := Prod.mk.injEq .. |>.mp (Except.ok.inj h)
      subst h1
      subst h2
      exact ⟨rfl, fun j hj => absurd hj (by simp)⟩
  | cons v rest ih =>
      intro i res w h
      simp only [normalizeOptions] at h
      cases hno : normalizeOption i v with
      | error e =>
          rw [hno] at h
          exact Except.noConfusion h
      | ok p =>
          rw [hno] at h
          obtain ⟨o?, w1⟩ := p
          cases hrec : normalizeOptions (i + 1) rest with
          | error e =>
              rw [hrec] at h
              exact Except.noConfusion h
          | ok q =>
              rw [hrec] at h
              obtain ⟨res', w2⟩ := q
              obtain ⟨hres, hw⟩ := Prod.mk.injEq .. |>.mp (Except.ok.inj h)
              obtain ⟨ihl, ihw⟩ := ih (i + 1) res' w2 hrec
              by_cases hd : isDictB v = true
              · cases v with
                | none => simp [isDictB] at hd
                | bool b => simp [isDictB] at hd
                | int n => simp [isDictB] at hd
                | str s => simp [isDictB] at hd
                | list xs => simp [isDictB] at hd
                | dict kvs =>
                  rcases normalizeOption_dict_shape i kvs with ⟨e, he⟩ | ⟨o, ho⟩
                  · rw [he] at hno
                    exact Except.noConfusion hno
                  · rw [ho] at hno
                    obtain ⟨ho1, ho2⟩ := Prod.mk.injEq .. |>.mp (Except.ok.inj hno)
                    subst ho1
                    subst ho2
                    subst hres
                    subst hw
                    constructor
                    · simp [List.countP_cons, isDictB, ihl]
                    · intro j hj hdj
                      cases j with
                      | zero => simp [isDictB] at hdj
                      | succ j =>
                          simp only [List.nil_append]
                          have := ihw j (by simpa using hj) (by simpa using hdj)
                          simpa [Nat.add_assoc, Nat.add_comm 1 j] using this
              · have hd' : isDictB v = false := by simpa using hd
                have hvshape : normalizeOption i v
                    = .ok (Option.none, [s!"Option {i} is not a dict, skipping"]) := by
                  cases v with
                  | dict kvs => simp [isDictB] at hd'
                  | none => rfl
                  | bool b => rfl
                  | int n => rfl
                  | str s => rfl
                  | list xs => rfl
                rw [hvshape] at hno
                obtain ⟨ho1, ho2⟩ := Prod.mk.injEq .. |>.mp (Except.ok.inj hno)
                subst ho1
                subst ho2
                subst hres
                subst hw
                constructor
                · simp [List.countP_cons, hd', ihl]
                · intro j hj hdj
                  cases j with
                  | zero => simp
                  | succ j =>
                      simp only [List.mem_append, List.mem_singleton]
                      right
                      have := ihw j (by simpa using hj) (by simpa using hdj)
                      simpa [Nat.add_assoc, Nat.add_comm 1 j] using this

theorem normalizeFact_dict_isSome (i : Nat) (kvs : List (String × PyVal)) :
    ((normalizeFact i (.dict kvs)).1).isSome = true := rfl

theorem normalizeFact_skip (i : Nat) (v : PyVal) (hv : isDictB v = false) :
    normalizeFact i v = (Option.none, [s!"Fact {i} is not a dict, skipping"]) := by
  cases v <;> first | rfl | simp [isDictB] at hv

theorem normalizeRisk_dict_isSome (i : Nat) (kvs : List (String × PyVal)) :
    ((normalizeRisk i (.dict kvs)).1).isSome = true := rfl

theorem normalizeRisk_skip (i : Nat) (v : PyVal) (hv : isDictB v = false) :
    normalizeRisk i v = (Option.none, [s!"Risk {i} is not a dict, skipping"]) := by
  cases v <;> first | rfl | simp [isDictB] at hv

theorem normalizeUnknown_dict_isSome (i : Nat) (kvs : List (String × PyVal)) :
    ((normalizeUnknown i (.dict kvs)).1).isSome = true := rfl

theorem normalizeUnknown_skip (i : Nat) (v : PyVal) (hv : isDictB v = false) :
    normalizeUnknown i v = (Option.none, [s!"Unknown {i} is not a dict, skipping"]) := by
  cases v <;> first | rfl | simp [isDictB] at hv

/-! ## Claim C9 -/

/-- C9: for every input dict whose `facts`, `options`, `risks` and
`unknowns` values are lists, every element of the corresponding output
lists carries exactly the keys of its schema (the dict literals built
by the validator), non-dict elements are dropped with a per-element
skip warning, and each output list is never longer than its input list
(its length is exactly the number of dict elements). -/
theorem c9_section_lists (ir : List (String × PyVal)) (now : String)
    (lf lo lr lu : List PyVal)
    (hf : dgetD ir "facts" (.list []) = .list lf)
    (ho : dgetD ir "options" (.list []) = .list lo)
    (hr : dgetD ir "risks" (.list []) = .list lr)
    (hu : dgetD ir "unknowns" (.list []) = .list lu)
    (out : ResearchIR) (w : List String)
    (hv : validate_research_ir ir now = .ok (out, w)) :
    (out.facts.length = lf.countP isDictB ∧ out.facts.length ≤ lf.length ∧
      (∀ f ∈ out.facts, pyKeys (factIRToPyVal f)
          = some ["statement", "source", "source_detail", "date", "confidence"]) ∧
      ∀ (j : Nat) (hj : j < lf.length), isDictB (lf.get ⟨j, hj⟩) = false →
        s!"Fact {j} is not a dict, skipping" ∈ w) ∧
    (out.options.length = lo.countP isDictB ∧ out.options.length ≤ lo.length ∧
      (∀ o ∈ out.options, pyKeys (optionIRToPyVal o)
          = some ["name", "pros", "cons", "conditions", "estimated_cost"]) ∧
      ∀ (j : Nat) (hj : j < lo.length), isDictB (lo.get ⟨j, hj⟩) = false →
        s!"Option {j} is not a dict, skipping" ∈ w) ∧
    (out.risks.length = lr.countP isDictB ∧ out.risks.length ≤ lr.length ∧
      (∀ r ∈ out.risks, pyKeys (riskIRToPyVal r)
          = some ["statement", "severity", "timeframe", "mitigation"]) ∧
      ∀ (j : Nat) (hj : j < lr.length), isDictB (lr.get ⟨j, hj⟩) = false →
        s!"Risk {j} is not a dict, skipping" ∈ w) ∧
    (out.unknowns.length = lu.countP isDictB ∧ out.unknowns.length ≤ lu.length ∧
      (∀ u ∈ out.unknowns, pyKeys (unknownIRToPyVal u)
          = some ["question", "why_unknown", "impact"]) ∧
      ∀ (j : Nat) (hj : j < lu.length), isDictB (lu.get ⟨j, hj⟩) = false →
        s!"Unknown {j} is not a dict, skipping" ∈ w) := by
  simp only [validate_research_ir, hf, ho, hr, hu, pyIter] at hv
  cases hopts : normalizeOptions 0 lo with
  | error e =>
      simp only [hopts] at hv
      exact Except.noConfusion hv
  | ok p =>
      obtain ⟨opts, w2⟩ := p
      simp only [hopts] at hv
      cases hmd : normalizeMetadata (dgetD ir "metadata" (.dict [])) now with
      | error e =>
          simp only [hmd] at hv
          exact Except.noConfusion hv
      | ok md =>
          simp only [hmd] at hv
          obtain ⟨h1, h2⟩ := Prod.mk.injEq .. |>.mp (Except.ok.inj hv)
          subst h1
          subst h2
          refine ⟨⟨(normLoop_spec normalizeFact _ normalizeFact_dict_isSome normalizeFact_skip lf 0).1,
                   ?_, fun f _ => rfl, ?_⟩,
                  ⟨(normalizeOptions_spec lo 0 opts w2 hopts).1, ?_, fun o _ => rfl, ?_⟩,
                  ⟨(normLoop_spec normalizeRisk _ normalizeRisk_dict_isSome normalizeRisk_skip lr 0).1,
                   ?_, fun r _ => rfl, ?_⟩,
                  ⟨(normLoop_spec normalizeUnknown _ normalizeUnknown_dict_isSome normalizeUnknown_skip lu 0).1,
                   ?_, fun u _ => rfl, ?_⟩⟩
          · exact (normLoop_spec normalizeFact _ normalizeFact_dict_isSome normalizeFact_skip lf 0).1 ▸
              List.countP_le_length _
          · intro j hj hdj
            have hm := (normLoop_spec normalizeFact _ normalizeFact_dict_isSome normalizeFact_skip lf 0).2 j hj hdj
            rw [Nat.zero_add] at hm
            exact List.mem_append_left _ (List.mem_append_left _ (List.mem_append_left _
              (List.mem_append_left _ hm)))
          · exact (normalizeOptions_spec lo 0 opts w2 hopts).1 ▸ List.countP_le_length _
          · intro j hj hdj
            have hm := (normalizeOptions_spec lo 0 opts w2 hopts).2 j hj hdj
            rw [Nat.zero_add] at hm
            exact List.mem_append_left _ (List.mem_append_left _ (List.mem_append_left _
              (List.mem_append_right _ hm)))
          · exact (normLoop_spec normalizeRisk _ normalizeRisk_dict_isSome normalizeRisk_skip lr 0).1 ▸
              List.countP_le_length _
          · intro j hj hdj
            have hm := (normLoop_spec normalizeRisk _ normalizeRisk_dict_isSome normalizeRisk_skip lr 0).2 j hj hdj
            rw [Nat.zero_add] at hm
            exact List.mem_append_left _ (List.mem_append_left _ (List.mem_append_right _ hm))
          · exact (normLoop_spec normalizeUnknown _ normalizeUnknown_dict_isSome normalizeUnknown_skip lu 0).1 ▸
              List.countP_le_length _
          · intro j hj hdj
            have hm := (normLoop_spec normalizeUnknown _ normalizeUnknown_dict_isSome normalizeUnknown_skip lu 0).2 j hj hdj
            rw [Nat.zero_add] at hm
            exact List.mem_append_left _ (List.mem_append_right _ hm)

/-- The concrete input of the C9 witness (one non-dict element in
`facts` and `options`, an empty dict in `unknowns`). -/
def c9Ir : List (String × PyVal) :=
  [("facts", .list [.int 7]), ("options", .list [.str "x"]),
   ("risks", .list []), ("unknowns", .list [.dict []])]

/-- The validator output on `c9Ir`. -/
def c9Out : ResearchIR :=
  { facts := [], options := [], risks := [],
    unknowns := [{ question := "", why_unknown := "unknown", impact := "unknown" }],
    metadata := { question := "", language := "ja", created_at := "T", models := [],
                  sources_count := 0, search_queries := [] } }

/-- The warnings accompanying `c9Out`. -/
def c9W : List String :=
  ["Fact 0 is not a dict, skipping", "Option 0 is not a dict, skipping",
   "Unknown 0 has empty question", "No facts extracted (empty facts list)"]

/-- C9 witness: the theorem applied to `c9Ir`. -/
theorem c9_witness :
    validate_research_ir c9Ir "T" = .ok (c9Out, c9W) ∧
    c9Out.facts.length = List.countP isDictB [PyVal.int 7] ∧
    c9Out.options.length ≤ [PyVal.str "x"].length ∧
    "Fact 0 is not a dict, skipping" ∈ c9W ∧
    "Option 0 is not a dict, skipping" ∈ c9W ∧
    (∀ u ∈ c9Out.unknowns, pyKeys (unknownIRToPyVal u)
        = some ["question", "why_unknown", "impact"]) := by
  have h := c9_section_lists c9Ir "T" [.int 7] [.str "x"] [] [.dict []]
    rfl rfl rfl rfl c9Out c9W rfl
  exact ⟨rfl, h.1.1, h.2.1.2.1, h.1.2.2.2 0 (by decide) rfl,
         h.2.1.2.2.2 0 (by decide) rfl, h.2.2.2.2.2.1⟩

/-! ## Claim C8 — idempotence of the validator -/

theorem pyStr_str (s : String) : pyStr (.str s) = s := rfl

theorem map_pyStr_strs (l : List String) : (l.map PyVal.str).map pyStr = l := by
  induction l with
  | nil => rfl
  | cons s l ih => simp [ih, pyStr_str]

theorem pyStrListOf_strs (l : List String) : pyStrListOf (.list (l.map .str)) = .ok l := by
  simp only [pyStrListOf, pyIter]
  rw [map_pyStr_strs]

theorem normalizeFact_roundtrip (i : Nat) (f : FactIR)
    (hs : f.source ∈ sourceEnum) (hc : f.confidence ∈ confidenceEnum) :
    normalizeFact i (factIRToPyVal f)
      = (some f, if f.statement = "" then [s!"Fact {i} has empty statement"] else []) := by
  obtain ⟨st, src, sd, dt, cf⟩ := f
  have hsrc : enumCoerce sourceEnum "model" (some (.str src)) = src :=
    enumCoerce_valid _ _ _ hs
  have hcf : enumCoerce confidenceEnum "unknown" (some (.str cf)) = cf :=
    enumCoerce_valid _ _ _ hc
  simp [normalizeFact, factIRToPyVal, alookup, dgetD, dget, pyStr, hsrc, hcf]

theorem normalizeRisk_roundtrip (i : Nat) (r : RiskIR)
    (hs : r.severity ∈ confidenceEnum) (ht : r.timeframe ∈ timeframeEnum) :
    normalizeRisk i (riskIRToPyVal r)
      = (some r, if r.statement = "" then [s!"Risk {i} has empty statement"] else []) := by
  obtain ⟨st, sv, tf, mg⟩ := r
  have h1 : enumCoerce confidenceEnum "unknown" (some (.str sv)) = sv :=
    enumCoerce_valid _ _ _ hs
  have h2 : enumCoerce timeframeEnum "unknown" (some (.str tf)) = tf :=
    enumCoerce_valid _ _ _ ht
  simp [normalizeRisk, riskIRToPyVal, alookup, dgetD, dget, pyStr, h1, h2]

theorem normalizeUnknown_roundtrip (i : Nat) (u : UnknownIR)
    (hw : u.why_unknown ∈ whyUnknownEnum) (hi : u.impact ∈ confidenceEnum) :
    normalizeUnknown i (unknownIRToPyVal u)
      = (some u, if u.question = "" then [s!"Unknown {i} has empty question"] else []) := by
  obtain ⟨q, wy, im⟩ := u
  have h1 : enumCoerce whyUnknownEnum "unknown" (some (.str wy)) = wy :=
    enumCoerce_valid _ _ _ hw
  have h2 : enumCoerce confidenceEnum "unknown" (some (.str im)) = im :=
    enumCoerce_valid _ _ _ hi
  simp [normalizeUnknown, unknownIRToPyVal, alookup, dgetD, dget, pyStr, h1, h2]

theorem normalizeOption_roundtrip (i : Nat) (o : OptionIR) :
    normalizeOption i (optionIRToPyVal o) = .ok (some o, []) := by
  obtain ⟨nm, pros, cons, conds, ec⟩ := o
  simp [normalizeOption, optionIRToPyVal, alookup, dgetD, dget, pyStr, pyStrListOf_strs]

theorem normalizeMetadata_roundtrip (m : ResearchMetadataIR) (now : String) :
    normalizeMetadata (metadataIRToPyVal m) now = .ok m := by
  obtain ⟨q, lg, ca, ms, sc, sq⟩ := m
  simp [normalizeMetadata, metadataIRToPyVal, alookup, dgetD, dget, pyStr, pyInt,
        pyStrListOf_strs]

theorem normLoop_roundtrip {α : Type} (step : Nat → PyVal → Option α × List String)
    (toVal : α → PyVal) (P : α → Prop)
    (hstep : ∀ (i : Nat) (x : α), P x → (step i (toVal x)).1 = some x) :
    ∀ (xs : List α) (i : Nat), (∀ x ∈ xs, P x) →
      (normLoop step i (xs.map toVal)).1 = xs := by
  intro xs
  induction xs with
  | nil => intro i h; rfl
  | cons x xs ih =>
      intro i h
      have hx := hstep i x (h x (by simp))
      simp only [List.map_cons, normLoop]
      rcases hs : step i (toVal x) with ⟨x?, w1⟩
      rw [hs] at hx
      simp only at hx
      subst hx
      simpa using ih (i + 1) (fun y hy => h y (by simp [hy]))

theorem normalizeOptions_roundtrip :
    ∀ (os : List OptionIR) (i : Nat),
      normalizeOptions i (os.map optionIRToPyVal) = .ok (os, []) := by
  intro os
  induction os with
  | nil => intro i; rfl
  | cons o os ih =>
      intro i
      simp only [List.map_cons, normalizeOptions, normalizeOption_roundtrip, ih,
                 List.nil_append]

/-- C8: `validate_research_ir` is idempotent on its value: feeding a
validator output (as the dict the Python code actually returns) back
into the validator reproduces the identical structure — no change in
facts, options, risks, unknowns or metadata — whatever the clock reads
on the second run. -/
theorem c8_idempotent (ir : List (String × PyVal)) (now now2 : String)
    (out : ResearchIR) (w : List String)
    (hv : validate_research_ir ir now = .ok (out, w)) :
    ∃ w2, validate_research_ir (researchIRToDict out) now2 = .ok (out, w2) := by
  obtain ⟨hfacts, hrisks, hunks⟩ := validate_research_ir_sound ir now out w hv
  obtain ⟨facts, opts, risks, unks, md⟩ := out
  have hF : (normLoop normalizeFact 0 (facts.map factIRToPyVal)).1 = facts :=
    normLoop_roundtrip normalizeFact factIRToPyVal
      (fun f => f.source ∈ sourceEnum ∧ f.confidence ∈ confidenceEnum)
      (fun i x hx => by rw [normalizeFact_roundtrip i x hx.1 hx.2]) facts 0 hfacts
  have hR : (normLoop normalizeRisk 0 (risks.map riskIRToPyVal)).1 = risks :=
    normLoop_roundtrip normalizeRisk riskIRToPyVal
      (fun r => r.severity ∈ confidenceEnum ∧ r.timeframe ∈ timeframeEnum)
      (fun i x hx => by rw [normalizeRisk_roundtrip i x hx.1 hx.2]) risks 0 hrisks
  have hU : (normLoop normalizeUnknown 0 (unks.map unknownIRToPyVal)).1 = unks :=
    normLoop_roundtrip normalizeUnknown unknownIRToPyVal
      (fun u => u.why_unknown ∈ whyUnknownEnum ∧ u.impact ∈ confidenceEnum)
      (fun i x hx => by rw [normalizeUnknown_roundtrip i x hx.1 hx.2]) unks 0 hunks
  refine ⟨(normLoop normalizeFact 0 (facts.map factIRToPyVal)).2 ++ [] ++
          (normLoop normalizeRisk 0 (risks.map riskIRToPyVal)).2 ++
          (normLoop normalizeUnknown 0 (unks.map unknownIRToPyVal)).2 ++
          (if facts.isEmpty then ["No facts extracted (empty facts list)"] else []), ?_⟩
  have e1 : dgetD (researchIRToDict ⟨facts, opts, risks, unks, md⟩) "facts" (.list [])
      = .list (facts.map factIRToPyVal) := rfl
  have e2 : dgetD (researchIRToDict ⟨facts, opts, risks, unks, md⟩) "options" (.list [])
      = .list (opts.map optionIRToPyVal) := rfl
  have e3 : dgetD (researchIRToDict ⟨facts, opts, risks, unks, md⟩) "risks" (.list [])
      = .list (risks.map riskIRToPyVal) := rfl
  have e4 : dgetD (researchIRToDict ⟨facts, opts, risks, unks, md⟩) "unknowns" (.list [])
      = .list (unks.map unknownIRToPyVal) := rfl
  have e5 : dgetD (researchIRToDict ⟨facts, opts, risks, unks, md⟩) "metadata" (.dict [])
      = metadataIRToPyVal md := rfl
  simp only [validate_research_ir, e1, e2, e3, e4, e5, pyIter,
             normalizeOptions_roundtrip, normalizeMetadata_roundtrip, hF, hR, hU]

/-- The validator output used by the C8 witness. -/
def c8Out : ResearchIR :=
  { facts := [{ statement := "s", source := "web", source_detail := "",
                date := .none, confidence := "low" }],
    options := [], risks := [],
    unknowns := [],
    metadata := { question := "", language := "ja", created_at := "T", models := [],
                  sources_count := 0, search_queries := [] } }

/-- C8 witness: a concrete validated IR revalidates to itself under a
different clock. -/
theorem c8_witness :
    validate_research_ir
        [("facts", PyVal.list [PyVal.dict
            [("statement", PyVal.str "s"), ("source", PyVal.str "web"),
             ("confidence", PyVal.str "low")]])] "T"
      = .ok (c8Out, []) ∧
    ∃ w2, validate_research_ir (researchIRToDict c8Out) "LATER" = .ok (c8Out, w2) :=
  ⟨rfl, c8_idempotent
          [("facts", PyVal.list [PyVal.dict
              [("statement", PyVal.str "s"), ("source", PyVal.str "web"),
               ("confidence", PyVal.str "low")]])] "T" "LATER" c8Out [] rfl⟩

/-! ## Claim C2 -/

/-- The post-parse tail of the extractor either reports `None` or a
normalized IR. -/
theorem validateParsed_shape (d : PyVal) (now raw : String) :
    (validateParsed d now raw).1 = Option.none ∨
    ∃ ir, (validateParsed d now raw).1 = some ir ∧ NormalizedIR ir := by
  cases d with
  | dict kvs =>
      cases hv : validate_research_ir kvs now with
      | ok p =>
          obtain ⟨ir, w⟩ := p
          exact Or.inr ⟨ir, by simp [validateParsed, hv],
                        validate_research_ir_sound kvs now ir w hv⟩
      | error e =>
          left
          simp [validateParsed, hv]
  | none => exact Or.inl rfl
  | bool b => exact Or.inl rfl
  | int n => exact Or.inl rfl
  | str s => exact Or.inl rfl
  | list xs => exact Or.inl rfl

/-- C2 counterexample to the claim as stated: on the empty string and on
non-JSON text the extractor's first component is `None`, not a
(low-fidelity) `ResearchIR`. -/
theorem c2_counterexample :
    extract_facts_and_risks_v2 "" "T" = (Option.none, "") ∧
    extract_facts_and_risks_v2 "not json" "T" = (Option.none, "not json") :=
  ⟨rfl, rfl⟩

/-- C2 (amended): the extractor never raises — it is total and every
internal failure (unparseable JSON after the repair pass, non-dict
parse result, validation exception) is mapped to a `None` first
component for the caller's v1 fallback; whenever it does return an IR,
that IR went through the normalizer and satisfies the enum invariant,
and on a parse that yields a dict which validates, the extractor
returns exactly the normalized IR with the stripped raw text. -/
theorem c2_extractor_amended :
    (∀ rawText now, (extract_facts_and_risks_v2 rawText now).1 = Option.none ∨
        ∃ ir, (extract_facts_and_risks_v2 rawText now).1 = some ir ∧ NormalizedIR ir) ∧
    (∀ rawText now kvs ir w,
        jsonLoads (removeCodeFences (strTrim rawText)) = .ok (.dict kvs) →
        validate_research_ir kvs now = .ok (ir, w) →
        extract_facts_and_risks_v2 rawText now = (some ir, strTrim rawText)) := by
  constructor
  · intro rawText now
    simp only [extract_facts_and_risks_v2]
    cases h1 : jsonLoads (removeCodeFences (strTrim rawText)) with
    | ok d =>
        simp only [h1]
        exact validateParsed_shape d now (strTrim rawText)
    | error e =>
        simp only [h1]
        cases h2 : jsonLoads (fixJson (removeCodeFences (strTrim rawText))) with
        | ok d =>
            simp only [h2]
            exact validateParsed_shape d now (strTrim rawText)
        | error e2 =>
            simp only [h2]
            exact Or.inl (by trivial)
  · intro rawText now kvs ir w h1 h2
    simp only [extract_facts_and_risks_v2, h1, validateParsed, h2]

/-- C2 witness: a well-formed fenced JSON response round-trips through
parse and validation to the normalized IR. -/
theorem c2_witness :
    jsonLoads (removeCodeFences (strTrim "```json\n\x7b\"facts\": []\x7d\n```"))
      = .ok (.dict [("facts", .list [])]) ∧
    validate_research_ir [("facts", PyVal.list [])] "T"
      = .ok ({ facts := [], options := [], risks := [], unknowns := [],
               metadata := { question := "", language := "ja", created_at := "T",
                             models := [], sources_count := 0, search_queries := [] } },
             ["No facts extracted (empty facts list)"]) ∧
    extract_facts_and_risks_v2 "```json\n\x7b\"facts\": []\x7d\n```" "T"
      = (some { facts := [], options := [], risks := [], unknowns := [],
                metadata := { question := "", language := "ja", created_at := "T",
                              models := [], sources_count := 0, search_queries := [] } },
         strTrim "```json\n\x7b\"facts\": []\x7d\n```") :=
  ⟨rfl, rfl,
   c2_extractor_amended.2 "```json\n\x7b\"facts\": []\x7d\n```" "T"
     [("facts", PyVal.list [])] _ ["No facts extracted (empty facts list)"] rfl rfl⟩

end Gemini3WebStudio
